import Mathlib

/-!
Verification of the content-type-gating partition module
(`openedx/features/content_type_gating/partitions.py`).

The module is embedded shallowly: external collaborators (course-mode
registry, enrollment registry, masquerade context, ecommerce service,
current request) are gathered into an `Externals` record of oracles, and
the three operations of the module — `create_content_gating_partition`,
`ContentTypeGatingPartitionScheme.get_group_for_user` /
`create_user_partition`, and
`ContentTypeGatingPartition.access_denied_fragment` — are translated
statement by statement. Logging is made observable as a list of message
strings returned next to the result. Python attribute errors surface as
`Except.error`.
-/

namespace ContentTypeGating

/-- Embeds `xmodule.partitions.partitions.Group`: an (id, name) pair. -/
structure Group where
  id : Nat
  name : String
deriving DecidableEq, Repr

/-- Embeds the external `course_modes.CourseMode` rows this module reads:
a mode slug, a purchase sku (empty string for a missing/falsy sku, as in
the Python truthiness test `verified_mode.sku`) and a minimum price. -/
structure CourseModeObj where
  slug : String
  sku : String
  min_price : Nat
deriving DecidableEq, Repr

/-- Embeds the user object; only `username` is read (for log messages). -/
structure User where
  username : String
deriving DecidableEq, Repr

/-- Embeds an opaque course key; only its string form is read. -/
structure CourseKey where
  key : String
deriving DecidableEq, Repr

/-- Embeds the blocked content block: the module only reads
`block.scope_ids.usage_id.course_key`. -/
structure Block where
  course_key : CourseKey
deriving DecidableEq, Repr

/-- Embeds a pre-existing `UserPartition` of the course as read by
`create_content_gating_partition`: only `id` and `name` are accessed. -/
structure UserPartitionRec where
  id : Nat
  name : String
deriving DecidableEq, Repr

/-- Embeds the course object passed to `create_content_gating_partition`:
its list of user partitions and the string form of its id
(`unicode(course.id)`). -/
structure Course where
  user_partitions : List UserPartitionRec
  id : String
deriving DecidableEq, Repr

/-- Embeds `web_fragments.fragment.Fragment`: the HTML content handed to
the constructor plus the css added with `add_css`. -/
structure Fragment where
  content : String
  css : String
deriving DecidableEq, Repr

/-- Embeds `settings.CONTENT_TYPE_GATE_GROUP_IDS`: the two group ids come
from external configuration, not from this module. -/
structure GateGroupIds where
  limited_access : Nat
  full_access : Nat
deriving DecidableEq, Repr

/-- Embeds the `ContentTypeGatingPartition` constructed by
`create_user_partition`: id, name, description, groups, parameters and the
active flag (the scheme reference `cls` is a process-wide constant and is
not represented). -/
structure Partition where
  id : Nat
  name : String
  description : String
  groups : List Group
  parameters : List (String × String)
  active : Bool
deriving DecidableEq, Repr

/-- Embeds `CONTENT_GATING_PARTITION_ID = 51`. -/
def CONTENT_GATING_PARTITION_ID : Nat := 51

/-- Embeds `COURSE_MODE_AUDIT = u\x27audit\x27`. -/
def COURSE_MODE_AUDIT : String := "audit"

/-- Modelled from the spec: the external constant `CourseMode.VERIFIED`,
the slug string of the verified (paid) mode, is not under src/; per the
spec modes are keyed by slug strings such as "verified". -/
def COURSE_MODE_VERIFIED : String := "verified"

/-- Helper for Python substring containment: scans the haystack character
list for an occurrence of the needle as a prefix of some suffix. -/
def charListContains (needle : List Char) : List Char → Bool
  | [] => needle.isEmpty
  | c :: rest => List.isPrefixOf needle (c :: rest) || charListContains needle rest

/-- Python substring containment `needle in hay`, as used for the
user-agent check `\x27org.edx.mobile\x27 in request.META.get(...)`. -/
def strContains (hay needle : String) : Bool :=
  charListContains needle.data hay.data

/-- Modelled from the spec: `has_verified_mode(modes)` of the external
course-mode registry is not under src/; per the spec it reports whether
the course has a "verified" (paid) mode at all, with modes keyed by slug. -/
def has_verified_mode (modes : List CourseModeObj) : Bool :=
  modes.any (fun m => m.slug == COURSE_MODE_VERIFIED)

/-- Modelled from the spec: `mode_for_course(course_key, slug, modes)` of
the external course-mode registry is not under src/; per the spec it
resolves a mode slug against the supplied mode list, keyed by the mode
slug string, and yields nothing when the slug is unknown. -/
def mode_for_course (slug : String) (modes : List CourseModeObj) : Option CourseModeObj :=
  modes.find? (fun m => m.slug == slug)

/-- Modelled from the spec: `modes.get(CourseMode.VERIFIED, \x27\x27)`
looks the verified slug up in the modes-by-slug dict; `none` stands for
the string default `\x27\x27` taken when no verified mode is configured. -/
def modes_get_verified (modes : List CourseModeObj) : Option CourseModeObj :=
  modes.find? (fun m => m.slug == COURSE_MODE_VERIFIED)

/-- The external collaborators of the module, abstracted as oracles per
the contracts in the spec: masquerade context, feature flag, course-mode
registry, enrollment registry, ecommerce service, and the current
request's user-agent header. `enrollment_mode_for_user` yields the
`(mode_slug, is_active)` pair, with the empty slug standing for the falsy
`None` slug of an unenrolled user. -/
structure Externals where
  get_course_masquerade : User → CourseKey → Bool
  is_masquerading_as_specific_student : User → CourseKey → Bool
  get_masquerading_user_group : CourseKey → User → Partition → Option Group
  content_type_gating_flag_enabled : Bool
  modes_for_course_dict : CourseKey → List CourseModeObj
  modes_for_course_all : CourseKey → List CourseModeObj
  enrollment_mode_for_user : User → CourseKey → String × Bool
  ecommerce_is_enabled : User → Bool
  get_checkout_page_url : String → String
  http_user_agent : String

/-- Embeds `ContentTypeGatingPartitionScheme.LIMITED_ACCESS`, built from
the configured group id. -/
def LIMITED_ACCESS (s : GateGroupIds) : Group :=
  { id := s.limited_access, name := "Limited-access Users" }

/-- Embeds `ContentTypeGatingPartitionScheme.FULL_ACCESS`, built from the
configured group id. -/
def FULL_ACCESS (s : GateGroupIds) : Group :=
  { id := s.full_access, name := "Full-access Users" }

/-- Embeds the `LOG.error` message of `get_group_for_user` for an unknown
enrolled course mode, identifying user, mode and course. -/
def unknown_mode_log (user : User) (mode_slug : String) (course_key : CourseKey) : String :=
  "User " ++ user.username ++ " is in an unknown CourseMode \x27" ++ mode_slug ++
    "\x27 for course " ++ course_key.key ++
    ". Granting full access to content for this user"

/-- Embeds `ContentTypeGatingPartitionScheme.get_group_for_user`,
paired with the list of log messages it emits. The branch order follows
the source: masquerade override, feature flag, verified-mode presence,
then enrollment lookup; `mode_slug != ""` embeds the Python truthiness
test `if mode_slug and is_active`. -/
def get_group_for_user (env : Externals) (s : GateGroupIds)
    (course_key : CourseKey) (user : User) (user_partition : Partition) :
    Option Group × List String :=
  if env.get_course_masquerade user course_key &&
      !(env.is_masquerading_as_specific_student user course_key) then
    (env.get_masquerading_user_group course_key user user_partition, [])
  else if !env.content_type_gating_flag_enabled then
    (some (FULL_ACCESS s), [])
  else
    let modes := env.modes_for_course_dict course_key
    if !(has_verified_mode modes) then
      (some (FULL_ACCESS s), [])
    else
      let enrollment := env.enrollment_mode_for_user user course_key
      if enrollment.fst != "" && enrollment.snd then
        match mode_for_course enrollment.fst (env.modes_for_course_all course_key) with
        | none =>
            (some (FULL_ACCESS s), [unknown_mode_log user enrollment.fst course_key])
        | some _ =>
            if enrollment.fst == COURSE_MODE_AUDIT then
              (some (LIMITED_ACCESS s), [])
            else
              (some (FULL_ACCESS s), [])
      else
        (some (FULL_ACCESS s), [])

/-- Embeds `ContentTypeGatingPartitionScheme.create_user_partition`: the
caller-supplied `groups` and `active` arguments are accepted but ignored;
the partition always carries the two fixed groups and `active = True`. -/
def create_user_partition (s : GateGroupIds) (id : Nat) (name description : String)
    (groups : Option (List Group)) (parameters : List (String × String))
    (active : Bool) : Partition :=
  { id := id
    name := name
    description := description
    groups := [LIMITED_ACCESS s, FULL_ACCESS s]
    parameters := parameters
    active := true }

/-- Embeds the module-level helper that scans the partition list for a
matching id (source name with a leading underscore). -/
def get_partition_from_id (partitions : List UserPartitionRec) (pid : Nat) :
    Option UserPartitionRec :=
  partitions.find? (fun p => p.id == pid)

/-- Embeds the `LOG.warning` message for an unregistered scheme. -/
def no_scheme_log : String :=
  "No \x27content_type_gate\x27 scheme registered, ContentTypeGatingPartitionScheme will not be created."

/-- Embeds the `LOG.warning` message for an id conflict, identifying the
conflicting partition by name and the course. -/
def id_conflict_log (course : Course) : String :=
  "Can\x27t add \x27content_type_gate\x27 partition, as ID " ++
    toString CONTENT_GATING_PARTITION_ID ++ " is assigned to " ++
    (((get_partition_from_id course.user_partitions CONTENT_GATING_PARTITION_ID).map
        (fun p => p.name)).getD "") ++
    " in course " ++ course.id ++ "."

/-- Embeds `create_content_gating_partition`, paired with the log messages
it emits. `scheme_registered` stands for whether
`UserPartition.get_scheme("content_type_gate")` succeeds rather than
raising `UserPartitionError`. The id check is plain membership of 51 in
the set of used ids, exactly as in the source. -/
def create_content_gating_partition (s : GateGroupIds) (scheme_registered : Bool)
    (course : Course) : Option Partition × List String :=
  if !scheme_registered then
    (none, [no_scheme_log])
  else
    let used_ids := course.user_partitions.map (fun p => p.id)
    if used_ids.contains CONTENT_GATING_PARTITION_ID then
      (none, [id_conflict_log course])
    else
      (some (create_user_partition s CONTENT_GATING_PARTITION_ID
          "Feature-based Enrollments"
          "Partition for segmenting users by access to gated content types"
          none [("course_id", course.id)] true), [])

/-- Embeds the upsell span built by `access_denied_fragment` for
non-mobile requests, with the checkout link and the minimum price
substituted into the dedented template. -/
def upsellHtml (link : String) (min_price : Nat) : String :=
  "<span class=\"certDIV_1\" style=\"\">\n" ++
  "    <a href=\"" ++ link ++ "\" class=\"certA_2\">\n" ++
  "        Upgrade to unlock  ($" ++ toString min_price ++ ")\n" ++
  "    </a>\n" ++
  "</span>\n"

/-- Embeds the dedented paywall HTML handed to the `Fragment` constructor,
with the upsell block substituted. -/
def paywallHtml (upsell : String) : String :=
  "<div class=\".content-paywall\">\n" ++
  "    <div>\n" ++
  "        <h3>\n" ++
  "            <span class=\"fa fa-lock\" aria-hidden=\"true\"></span>\n" ++
  "            Verified Track Access\n" ++
  "        </h3>\n" ++
  "        <span style=\" padding: 10px 0;\">\n" ++
  "            Graded assessments are available to Verified Track learners.\n" ++
  "        </span>\n" ++
  "        " ++ upsell ++ "\n" ++
  "    </div>\n" ++
  "    <img src=\"https://courses.edx.org/static/images/edx-verified-mini-cert.png\">\n" ++
  "</div>\n"

/-- Embeds the css added to the fragment with `frag.add_css`. -/
def paywallCss : String :=
  ".content-paywall \x7b\n" ++
  "    margin-top: 10px;\n" ++
  "    border-radius: 5px 5px 5px 5px;\n" ++
  "    display: flex;\n" ++
  "    justify-content: space-between;\n" ++
  "    border: lightgrey 1px solid;\n" ++
  "    padding: 15px 20px;\n" ++
  "\x7d\n\n" ++
  ".content-paywall h3 \x7b\n" ++
  "    font-weight: 600;\n" ++
  "    margin-bottom: 10px;\n" ++
  "\x7d\n\n" ++
  ".content-paywall .fa-lock \x7b\n" ++
  "    color: black;\n" ++
  "    margin-right: 10px;\n" ++
  "    font-size: 24px;\n" ++
  "    margin-left: 5px;\n" ++
  "\x7d\n\n" ++
  ".content-paywall .certDIV_1 \x7b\n" ++
  "    color: rgb(25, 125, 29);\n" ++
  "    height: 20px;\n" ++
  "    width: 300px;\n" ++
  "    font: normal normal 600 normal 14px / 20px \x27Helvetica Neue\x27, Helvetica, Arial, sans-serif;\n" ++
  "\x7d\n\n" ++
  ".content-paywall .certA_2 \x7b\n" ++
  "    text-decoration: underline !important;\n" ++
  "    color: rgb(0, 117, 180);\n" ++
  "    font: normal normal 400 normal 16px / 25.6px \x27Open Sans\x27;\n" ++
  "\x7d\n\n" ++
  ".content-paywall img \x7b\n" ++
  "    height: 60px;\n" ++
  "\x7d\n"

/-- Embeds the `ecommerce_checkout_link` computation of
`access_denied_fragment` for a real verified mode object: the link stays
empty unless checkout is enabled for the user and the sku is truthy. -/
def ecommerce_checkout_link (env : Externals) (user : User) (vm : CourseModeObj) : String :=
  if env.ecommerce_is_enabled user && vm.sku != "" then
    env.get_checkout_page_url vm.sku
  else ""

/-- Embeds `ContentTypeGatingPartition.access_denied_fragment` (`self`,
`user_group` and `allowed_groups` are never read by the body). The source
computes `verified_mode = modes.get(CourseMode.VERIFIED, \x27\x27)`, whose
default is the empty string, not `None`; so when no verified mode is
configured, the guard `if verified_mode is None: return None` never
fires, and the attribute reads `verified_mode.sku` (reached only when
ecommerce checkout is enabled, by `and` short-circuiting) and
`verified_mode.min_price` (reached only on the non-mobile branch) raise
`AttributeError` on the string default, embedded as `Except.error`. -/
def access_denied_fragment (env : Externals) (block : Block) (user : User)
    (user_group : Group) (allowed_groups : List Group) :
    Except String (Option Fragment) :=
  let modes := env.modes_for_course_dict block.course_key
  match modes_get_verified modes with
  | none =>
      if env.ecommerce_is_enabled user then
        Except.error "AttributeError"
      else if strContains env.http_user_agent "org.edx.mobile" then
        Except.ok (some { content := paywallHtml "", css := paywallCss })
      else
        Except.error "AttributeError"
  | some verified_mode =>
      let upsell :=
        if strContains env.http_user_agent "org.edx.mobile" then ""
        else upsellHtml (ecommerce_checkout_link env user verified_mode) verified_mode.min_price
      Except.ok (some { content := paywallHtml upsell, css := paywallCss })

/-! Shared concrete instances used to exercise the definitions. -/

/-- A default oracle environment for concrete evaluations. -/
def baseEnv : Externals :=
  { get_course_masquerade := fun _ _ => false
    is_masquerading_as_specific_student := fun _ _ => false
    get_masquerading_user_group := fun _ _ _ => none
    content_type_gating_flag_enabled := true
    modes_for_course_dict := fun _ => []
    modes_for_course_all := fun _ => []
    enrollment_mode_for_user := fun _ _ => ("", false)
    ecommerce_is_enabled := fun _ => false
    get_checkout_page_url := fun _ => ""
    http_user_agent := "" }

/-- Example configured group ids. -/
def exIds : GateGroupIds := { limited_access := 1, full_access := 2 }

/-- Example user. -/
def exUser : User := { username := "learner1" }

/-- Example course key. -/
def exKey : CourseKey := { key := "course-v1:edX+Demo+2026" }

/-- Example blocked content block. -/
def exBlock : Block := { course_key := exKey }

/-- Example group argument for the fragment renderer. -/
def exGroup : Group := LIMITED_ACCESS exIds

/-- Example partition argument for the group-resolution rule. -/
def exPart : Partition :=
  { id := CONTENT_GATING_PARTITION_ID
    name := "Feature-based Enrollments"
    description := "Partition for segmenting users by access to gated content types"
    groups := [LIMITED_ACCESS exIds, FULL_ACCESS exIds]
    parameters := [("course_id", "course-v1:edX+Demo+2026")]
    active := true }

/-! Helper lemmas shared between claims. -/

/-- The upsell span is never the empty string: its template starts with a
nonempty literal. -/
theorem upsellHtml_ne_empty (link : String) (p : Nat) : upsellHtml link p ≠ "" := by
  intro h
  have hl := congrArg String.length h
  rw [show ("" : String).length = 0 from rfl] at hl
  simp only [upsellHtml, String.length_append] at hl
  have h1 : 0 < ("<span class=\"certDIV_1\" style=\"\">\n" : String).length := by decide
  omega

/-- When some partition of the course already uses the fixed id, the
factory yields no partition and logs a warning, whether or not the scheme
is registered. -/
theorem create_partition_none_of_id_used (s : GateGroupIds) (reg : Bool) (course : Course)
    (h : ∃ p ∈ course.user_partitions, p.id = CONTENT_GATING_PARTITION_ID) :
    (create_content_gating_partition s reg course).fst = none ∧
    (create_content_gating_partition s reg course).snd ≠ [] := by
  cases reg with
  | false =>
      constructor
      · rfl
      · simp [create_content_gating_partition, no_scheme_log]
  | true =>
      unfold create_content_gating_partition
      simp [h]

/-! Claim theorems. -/

/-- C2 counterexample: with the feature flag disabled but a masquerade
override active (masquerading generically, not as a specific student), the
scheme returns the masquerade group, not FULL_ACCESS — so the claim as
universally stated over all users fails. -/
def c2Env : Externals :=
  { baseEnv with
    get_course_masquerade := fun _ _ => true
    get_masquerading_user_group := fun _ _ _ => some { id := 99, name := "Sentinel Masquerade Group" }
    content_type_gating_flag_enabled := false }

/-- C2: counterexample — a concrete environment with the feature flag
disabled in which get_group_for_user does not return FULL_ACCESS, because
the masquerade override branch precedes the flag check. -/
theorem C2_counterexample :
    c2Env.content_type_gating_flag_enabled = false ∧
    (get_group_for_user c2Env exIds exKey exUser exPart).fst ≠ some (FULL_ACCESS exIds) := by
  constructor
  · rfl
  · decide

/-- C2 (amended): for every user not subject to the masquerade override
(not masquerading in the course, or masquerading as one specific student),
when the content-gating feature flag is disabled, get_group_for_user
returns FULL_ACCESS, regardless of the enrollment state. -/
theorem C2_flag_off_full_access (env : Externals) (s : GateGroupIds)
    (ck : CourseKey) (u : User) (up : Partition)
    (hm : env.get_course_masquerade u ck = false ∨
        env.is_masquerading_as_specific_student u ck = true)
    (hf : env.content_type_gating_flag_enabled = false) :
    (get_group_for_user env s ck u up).fst = some (FULL_ACCESS s) := by
  unfold get_group_for_user
  rcases hm with hm | hm <;> simp [hm, hf]

/-- Environment for the C2 witness: flag disabled, active audit
enrollment, verified mode configured, no masquerade. -/
def c2wEnv : Externals :=
  { baseEnv with
    content_type_gating_flag_enabled := false
    modes_for_course_dict := fun _ => [{ slug := "verified", sku := "ABC123", min_price := 49 }]
    modes_for_course_all := fun _ => [{ slug := "audit", sku := "", min_price := 0 }]
    enrollment_mode_for_user := fun _ _ => ("audit", true) }

/-- C2 witness: a concrete non-masquerading user with an active audit
enrollment still gets FULL_ACCESS when the flag is off. -/
theorem C2_flag_off_full_access_witness :
    (get_group_for_user c2wEnv exIds exKey exUser exPart).fst = some (FULL_ACCESS exIds) :=
  C2_flag_off_full_access c2wEnv exIds exKey exUser exPart (Or.inl rfl) rfl

/-- C4: for a user masquerading in the course but not as one specific
student, get_group_for_user returns exactly the masquerade subsystem's
group lookup result, for every feature-flag state, mode configuration and
enrollment state. -/
theorem C4_masquerade_passthrough (env : Externals) (s : GateGroupIds)
    (ck : CourseKey) (u : User) (up : Partition)
    (hm : env.get_course_masquerade u ck = true)
    (hs : env.is_masquerading_as_specific_student u ck = false) :
    (get_group_for_user env s ck u up).fst = env.get_masquerading_user_group ck u up := by
  unfold get_group_for_user
  simp [hm, hs]

/-- Environment for the C4 witness: generic masquerade active with a
sentinel group, flag off, active audit enrollment. -/
def c4Env : Externals :=
  { baseEnv with
    get_course_masquerade := fun _ _ => true
    get_masquerading_user_group := fun _ _ _ => some { id := 7, name := "Masquerade Target" }
    content_type_gating_flag_enabled := false
    enrollment_mode_for_user := fun _ _ => ("audit", true) }

/-- C4 witness: the sentinel masquerade group is passed through verbatim
at a concrete input. -/
theorem C4_masquerade_passthrough_witness :
    (get_group_for_user c4Env exIds exKey exUser exPart).fst =
      c4Env.get_masquerading_user_group exKey exUser exPart :=
  C4_masquerade_passthrough c4Env exIds exKey exUser exPart rfl rfl

/-- C5: for a non-masquerading user with an active enrollment whose slug
resolves against the full mode list, when the flag is enabled and a
verified mode exists, the resolved audit mode yields LIMITED_ACCESS and
any resolved non-audit mode yields FULL_ACCESS. -/
theorem C5_audit_limited_other_full (env : Externals) (s : GateGroupIds)
    (ck : CourseKey) (u : User) (up : Partition) (slug : String) (m : CourseModeObj)
    (hm : env.get_course_masquerade u ck = false)
    (hf : env.content_type_gating_flag_enabled = true)
    (hv : has_verified_mode (env.modes_for_course_dict ck) = true)
    (he : env.enrollment_mode_for_user u ck = (slug, true))
    (hs : slug ≠ "")
    (hr : mode_for_course slug (env.modes_for_course_all ck) = some m) :
    (m.slug = COURSE_MODE_AUDIT →
      (get_group_for_user env s ck u up).fst = some (LIMITED_ACCESS s)) ∧
    (m.slug ≠ COURSE_MODE_AUDIT →
      (get_group_for_user env s ck u up).fst = some (FULL_ACCESS s)) := by
  have hms : m.slug = slug := by
    have hr2 := hr
    unfold mode_for_course at hr2
    have := List.find?_some hr2
    simpa using this
  constructor
  · intro ha
    have hsl : slug = COURSE_MODE_AUDIT := by rw [← hms]; exact ha
    subst hsl
    unfold get_group_for_user
    simp [hm, hf, hv, he, hs, hr]
  · intro ha
    have hsl : slug ≠ COURSE_MODE_AUDIT := by rw [← hms]; exact ha
    unfold get_group_for_user
    simp [hm, hf, hv, he, hs, hr, hsl]

/-- Environment for the C5 witness, audit branch. -/
def c5EnvA : Externals :=
  { baseEnv with
    modes_for_course_dict := fun _ => [{ slug := "verified", sku := "ABC123", min_price := 49 }]
    modes_for_course_all := fun _ =>
      [{ slug := "audit", sku := "", min_price := 0 },
       { slug := "verified", sku := "ABC123", min_price := 49 }]
    enrollment_mode_for_user := fun _ _ => ("audit", true) }

/-- Environment for the C5 witness, verified branch. -/
def c5EnvB : Externals :=
  { baseEnv with
    modes_for_course_dict := fun _ => [{ slug := "verified", sku := "ABC123", min_price := 49 }]
    modes_for_course_all := fun _ =>
      [{ slug := "audit", sku := "", min_price := 0 },
       { slug := "verified", sku := "ABC123", min_price := 49 }]
    enrollment_mode_for_user := fun _ _ => ("verified", true) }

/-- C5 witness: a concrete active audit enrollment gets LIMITED_ACCESS
and a concrete active verified enrollment gets FULL_ACCESS. -/
theorem C5_audit_limited_other_full_witness :
    (get_group_for_user c5EnvA exIds exKey exUser exPart).fst = some (LIMITED_ACCESS exIds) ∧
    (get_group_for_user c5EnvB exIds exKey exUser exPart).fst = some (FULL_ACCESS exIds) :=
  ⟨(C5_audit_limited_other_full c5EnvA exIds exKey exUser exPart "audit"
      { slug := "audit", sku := "", min_price := 0 }
      rfl rfl rfl rfl (by decide) rfl).1 rfl,
   (C5_audit_limited_other_full c5EnvB exIds exKey exUser exPart "verified"
      { slug := "verified", sku := "ABC123", min_price := 49 }
      rfl rfl rfl rfl (by decide) rfl).2 (by decide)⟩

/-- C6: for an enrolled active user whose mode slug resolves to no known
mode in the full mode list, get_group_for_user returns FULL_ACCESS (no
exception) and logs the error message identifying user, mode and course. -/
theorem C6_unknown_mode_fail_open (env : Externals) (s : GateGroupIds)
    (ck : CourseKey) (u : User) (up : Partition) (slug : String)
    (hm : env.get_course_masquerade u ck = false)
    (hf : env.content_type_gating_flag_enabled = true)
    (hv : has_verified_mode (env.modes_for_course_dict ck) = true)
    (he : env.enrollment_mode_for_user u ck = (slug, true))
    (hs : slug ≠ "")
    (hr : mode_for_course slug (env.modes_for_course_all ck) = none) :
    get_group_for_user env s ck u up =
      (some (FULL_ACCESS s), [unknown_mode_log u slug ck]) := by
  unfold get_group_for_user
  simp [hm, hf, hv, he, hs, hr]

/-- Environment for the C6 witness: an active enrollment in an unknown
mode slug, absent from the full mode list. -/
def c6Env : Externals :=
  { baseEnv with
    modes_for_course_dict := fun _ => [{ slug := "verified", sku := "ABC123", min_price := 49 }]
    modes_for_course_all := fun _ =>
      [{ slug := "audit", sku := "", min_price := 0 },
       { slug := "verified", sku := "ABC123", min_price := 49 }]
    enrollment_mode_for_user := fun _ _ => ("masters", true) }

/-- C6 witness: the unknown slug "masters" yields FULL_ACCESS together
with the logged error message at a concrete input. -/
theorem C6_unknown_mode_fail_open_witness :
    get_group_for_user c6Env exIds exKey exUser exPart =
      (some (FULL_ACCESS exIds), [unknown_mode_log exUser "masters" exKey]) :=
  C6_unknown_mode_fail_open c6Env exIds exKey exUser exPart "masters"
    rfl rfl rfl rfl (by decide) rfl

/-- C3: the factory yields nothing and logs a warning whenever partition
id 51 is already used by a partition of the course; and when the scheme is
registered and no partition uses id 51, it yields a partition with id 51,
exactly the two fixed groups, and a parameters map carrying the course
identifier. -/
theorem C3_create_partition_spec (s : GateGroupIds) (reg : Bool) (course : Course) :
    ((∃ p ∈ course.user_partitions, p.id = CONTENT_GATING_PARTITION_ID) →
      (create_content_gating_partition s reg course).fst = none ∧
      (create_content_gating_partition s reg course).snd ≠ []) ∧
    (reg = true →
      (∀ p ∈ course.user_partitions, p.id ≠ CONTENT_GATING_PARTITION_ID) →
      (create_content_gating_partition s reg course).fst =
        some { id := CONTENT_GATING_PARTITION_ID
               name := "Feature-based Enrollments"
               description := "Partition for segmenting users by access to gated content types"
               groups := [LIMITED_ACCESS s, FULL_ACCESS s]
               parameters := [("course_id", course.id)]
               active := true }) := by
  constructor
  · intro h
    exact create_partition_none_of_id_used s reg course h
  · intro hreg hall
    subst hreg
    have hno : ¬ ∃ p ∈ course.user_partitions, p.id = CONTENT_GATING_PARTITION_ID := by
      rintro ⟨p, hp, hid⟩
      exact hall p hp hid
    unfold create_content_gating_partition
    simp [hno, create_user_partition]

/-- Course for the C3 witness whose id 51 is taken by a foreign partition. -/
def c3CourseBusy : Course :=
  { user_partitions := [{ id := 51, name := "Enrollment Track Groups" }]
    id := "course-v1:edX+C3+2026" }

/-- Course for the C3 witness with no partition at id 51. -/
def c3CourseFree : Course :=
  { user_partitions := [{ id := 50, name := "Cohort Groups" }]
    id := "course-v1:edX+C3+2026" }

/-- C3 witness: the busy course yields nothing plus a warning; the free
course yields the expected partition. -/
theorem C3_create_partition_spec_witness :
    ((create_content_gating_partition exIds true c3CourseBusy).fst = none ∧
     (create_content_gating_partition exIds true c3CourseBusy).snd ≠ []) ∧
    (create_content_gating_partition exIds true c3CourseFree).fst =
      some { id := CONTENT_GATING_PARTITION_ID
             name := "Feature-based Enrollments"
             description := "Partition for segmenting users by access to gated content types"
             groups := [LIMITED_ACCESS exIds, FULL_ACCESS exIds]
             parameters := [("course_id", c3CourseFree.id)]
             active := true } :=
  ⟨(C3_create_partition_spec exIds true c3CourseBusy).1
      ⟨{ id := 51, name := "Enrollment Track Groups" }, by decide, rfl⟩,
   (C3_create_partition_spec exIds true c3CourseFree).2 rfl (by decide)⟩

/-- C9: the factory checks only membership of id 51 among the used ids,
so any course already holding a partition with id 51 — including the
content-gating partition this module itself created earlier — makes it
yield nothing: the operation is not idempotent. -/
theorem C9_id_membership_blocks (s : GateGroupIds) (reg : Bool) (course : Course)
    (h : ∃ p ∈ course.user_partitions, p.id = CONTENT_GATING_PARTITION_ID) :
    (create_content_gating_partition s reg course).fst = none :=
  (create_partition_none_of_id_used s reg course h).1

/-- Course for the C9 witness: its partition at id 51 is the one this
module itself creates (same name), yet creation is still refused. -/
def c9Course : Course :=
  { user_partitions := [{ id := 51, name := "Feature-based Enrollments" }]
    id := "course-v1:edX+C9+2026" }

/-- C9 witness: re-running the factory against its own partition yields
nothing. -/
theorem C9_id_membership_blocks_witness :
    (create_content_gating_partition exIds true c9Course).fst = none :=
  C9_id_membership_blocks exIds true c9Course
    ⟨{ id := 51, name := "Feature-based Enrollments" }, by decide, rfl⟩

/-- C7: for every caller-supplied groups list and every caller-supplied
active flag (including false), create_user_partition yields a partition
with exactly the two fixed groups and active = true. -/
theorem C7_fixed_groups_always_active (s : GateGroupIds) (id : Nat)
    (name description : String) (groups : Option (List Group))
    (parameters : List (String × String)) (active : Bool) :
    (create_user_partition s id name description groups parameters active).groups =
      [LIMITED_ACCESS s, FULL_ACCESS s] ∧
    (create_user_partition s id name description groups parameters active).active = true :=
  ⟨rfl, rfl⟩

/-- C10: two calls to access_denied_fragment agreeing on the environment
(mode configuration, ecommerce state, current request), the block and the
user give equal results for any user_group and allowed_groups arguments:
the output never depends on those two parameters. -/
theorem C10_fragment_ignores_group_args (env : Externals) (block : Block) (u : User)
    (g1 g2 : Group) (a1 a2 : List Group) :
    access_denied_fragment env block u g1 a1 = access_denied_fragment env block u g2 a2 :=
  rfl

/-- C8: when the course has a verified mode, the fragment carries the
upsell block (with the checkout link and price substituted) exactly when
the user-agent does not identify the mobile app; on a mobile user-agent
the upsell block is omitted entirely (empty substitution). -/
theorem C8_upsell_iff_not_mobile (env : Externals) (block : Block) (u : User)
    (g : Group) (ags : List Group) (vm : CourseModeObj)
    (hv : modes_get_verified (env.modes_for_course_dict block.course_key) = some vm) :
    (strContains env.http_user_agent "org.edx.mobile" = true →
      access_denied_fragment env block u g ags =
        Except.ok (some { content := paywallHtml "", css := paywallCss })) ∧
    (strContains env.http_user_agent "org.edx.mobile" = false →
      access_denied_fragment env block u g ags =
        Except.ok (some
          { content := paywallHtml (upsellHtml (ecommerce_checkout_link env u vm) vm.min_price),
            css := paywallCss }) ∧
      upsellHtml (ecommerce_checkout_link env u vm) vm.min_price ≠ "") := by
  constructor
  · intro hmob
    unfold access_denied_fragment
    simp [hv, hmob]
  · intro hmob
    refine ⟨?_, upsellHtml_ne_empty _ _⟩
    unfold access_denied_fragment
    simp [hv, hmob]

/-- Verified mode used by the C8 witness. -/
def c8Vm : CourseModeObj := { slug := "verified", sku := "SKU123", min_price := 49 }

/-- Environment for the C8 witness with a mobile-app user-agent. -/
def c8EnvMob : Externals :=
  { baseEnv with
    modes_for_course_dict := fun _ => [c8Vm]
    ecommerce_is_enabled := fun _ => true
    get_checkout_page_url := fun sku => "https://ecommerce.example.com/basket/add/?sku=" ++ sku
    http_user_agent := "edX/org.edx.mobile;2.0" }

/-- Environment for the C8 witness with a browser user-agent. -/
def c8EnvWeb : Externals :=
  { c8EnvMob with http_user_agent := "Mozilla/5.0 (X11; Linux x86_64)" }

/-- C8 witness: at concrete inputs the mobile user-agent omits the upsell
block and the browser user-agent carries it. -/
theorem C8_upsell_iff_not_mobile_witness :
    access_denied_fragment c8EnvMob exBlock exUser exGroup [] =
      Except.ok (some { content := paywallHtml "", css := paywallCss }) ∧
    access_denied_fragment c8EnvWeb exBlock exUser exGroup [] =
      Except.ok (some
        { content := paywallHtml (upsellHtml (ecommerce_checkout_link c8EnvWeb exUser c8Vm) c8Vm.min_price),
          css := paywallCss }) :=
  ⟨(C8_upsell_iff_not_mobile c8EnvMob exBlock exUser exGroup [] c8Vm rfl).1 (by decide),
   ((C8_upsell_iff_not_mobile c8EnvWeb exBlock exUser exGroup [] c8Vm rfl).2 (by decide)).1⟩

/-- Environment for C1: no verified mode configured, ecommerce checkout
disabled, mobile user-agent. -/
def c1Env : Externals :=
  { baseEnv with
    modes_for_course_dict := fun _ => [{ slug := "audit", sku := "", min_price := 0 }]
    http_user_agent := "edX/org.edx.mobile;2.0" }

/-- Same as c1Env but with ecommerce checkout enabled. -/
def c1EnvEcomm : Externals :=
  { c1Env with ecommerce_is_enabled := fun _ => true }

/-- Same as c1Env but with a browser user-agent. -/
def c1EnvWeb : Externals :=
  { c1Env with http_user_agent := "Mozilla/5.0 (X11; Linux x86_64)" }

/-- C1: with no verified mode configured, access_denied_fragment never
returns the defensive None the spec promises: the dict default is the
empty string rather than None, so the mobile no-ecommerce case still
builds a fragment, and the other cases raise AttributeError on the string
default. -/
theorem C1_no_verified_mode_not_none :
    access_denied_fragment c1Env exBlock exUser exGroup [] =
      Except.ok (some { content := paywallHtml "", css := paywallCss }) ∧
    access_denied_fragment c1Env exBlock exUser exGroup [] ≠ Except.ok none ∧
    access_denied_fragment c1EnvEcomm exBlock exUser exGroup [] = Except.error "AttributeError" ∧
    access_denied_fragment c1EnvWeb exBlock exUser exGroup [] = Except.error "AttributeError" := by
  refine ⟨rfl, ?_, rfl, rfl⟩
  rw [show access_denied_fragment c1Env exBlock exUser exGroup [] =
      Except.ok (some { content := paywallHtml "", css := paywallCss }) from rfl]
  simp

end ContentTypeGating
